import Mathlib

/-!
Verification of the resilience layer of the python-ai-utils repository:
the retry decorator, the timeout decorator, the token-bucket rate limiter
and the async API client's request path, embedded as pure Lean functions.

Conventions of the embedding:
* machine floats are modelled as rationals (the algorithms use only
  the field operations and comparisons);
* fallible Python code is modelled with `Except`;
* an async function is modelled by the value/exception of each attempt;
* the passage of time is an explicit `now` argument (a monotonic clock
  reading), and sleeps are recorded as data rather than performed.
-/

/-! ### Retry decorator — src/ai_utils/decorators/retry.py -/

/-- Name of the exponential backoff strategy (compared with `==` in the
source; every other string selects the linear strategy). -/
def expStrategy : String := "exponential"

/-- Name of the linear backoff strategy (any string other than
`"exponential"` behaves the same way). -/
def linStrategy : String := "linear"

/-- The per-attempt delay computed at the top of the retry loop:
`2 ** attempt` when `backoff == "exponential"`, else `attempt + 1`
(retry.py lines 33–36).  The value is in whole seconds, so an integer. -/
def delayFor (backoff : String) (attempt : ℕ) : ℤ :=
  if backoff = expStrategy then 2 ^ attempt else (attempt : ℤ) + 1

/-- Observable trace of one call to a `retry`-wrapped function:
`result` is `none` when the `for` loop body never runs (the wrapper then
falls off the loop and returns Python `None`), otherwise the value
returned or the exception finally raised; `calls` lists the 0-based
attempt numbers at which the wrapped function was invoked, in order;
`sleeps` lists the delays slept between failed attempts, in order. -/
structure RetryTrace (E A : Type) where
  result : Option (Except E A)
  calls : List ℕ
  sleeps : List ℤ
deriving Repr

/-- The retry loop of retry.py lines 32–47, from a given `attempt` with
`fuel` loop iterations remaining (the caller passes
`fuel = max_retries - attempt`, mirroring `for attempt in range(max_retries)`).
On success the value is returned; on failure, if `attempt == max_retries - 1`
the exception is re-raised, otherwise the wrapper sleeps `delayFor` seconds
and continues with the next attempt. -/
def retryFrom (maxRetries : ℤ) (backoff : String) (f : ℕ → Except E A) :
    ℕ → ℕ → RetryTrace E A
  | _, 0 => ⟨none, [], []⟩
  | attempt, fuel + 1 =>
    let delay := delayFor backoff attempt
    match f attempt with
    | .ok a => ⟨some (.ok a), [attempt], []⟩
    | .error e =>
      if (attempt : ℤ) = maxRetries - 1 then ⟨some (.error e), [attempt], []⟩
      else
        let rest := retryFrom maxRetries backoff f (attempt + 1) fuel
        ⟨rest.result, attempt :: rest.calls, delay :: rest.sleeps⟩

/-- One call to the wrapper produced by `retry(max_retries, backoff)`
applied to an async function whose attempt `n` yields `f n`.
`max_retries` is kept as an integer because the Python parameter may be
negative; `range(max_retries)` then iterates `max(0, max_retries)` times. -/
def retryRun (maxRetries : ℤ) (backoff : String) (f : ℕ → Except E A) :
    RetryTrace E A :=
  retryFrom maxRetries backoff f 0 maxRetries.toNat

/-! ### Rate limiter — src/ai_utils/rate_limit.py -/

/-- Name of the token-bucket mode (the default; any string other than
`"semaphore"` selects it in the source). -/
def tokenBucketMode : String := "token_bucket"

/-- The fields a `RateLimiter` instance carries in token-bucket mode
(`max_requests`, `time_window`, `mode`, `tokens`, `last_update`);
`max_requests` is an integer because the Python parameter is an `int`. -/
structure RLState where
  maxRequests : ℤ
  timeWindow : ℚ
  mode : String
  tokens : ℚ
  lastUpdate : ℚ
deriving Repr, DecidableEq

/-- Name of the semaphore mode (selected only by exactly this string). -/
def semaphoreMode : String := "semaphore"

/-- Construction-time errors: `invalidConfig` is the kind the spec's
taxonomy assigns to bad construction parameters, and `valueError` is the
Python `ValueError` that `asyncio.Semaphore` raises when its initial
value is negative. -/
inductive ConfigError
  | invalidConfig
  | valueError
deriving Repr, DecidableEq

/-- The state `RateLimiter.__init__` builds: every field is stored as
given, `tokens` starts at `max_requests` and `last_update` at the current
monotonic clock reading `now` (rate_limit.py lines 24–47).  In semaphore
mode the source stores an `asyncio.Semaphore(max_requests)` instead of
the token fields; the `tokens`/`lastUpdate` fields here are meaningful
only in token-bucket mode, the stored capacity doubling as the
semaphore's initial value. -/
def rateLimiterState (maxRequests : ℤ) (timeWindow : ℚ) (mode : String)
    (now : ℚ) : RLState :=
  ⟨maxRequests, timeWindow, mode, (maxRequests : ℚ), now⟩

/-- `RateLimiter.__init__` as a fallible constructor.  The body performs
no validation of its own; its only failure path is that in semaphore mode
it runs `asyncio.Semaphore(max_requests)` (rate_limit.py line 43), which
raises `ValueError` when the initial value is negative.  In token-bucket
mode (the `else` branch, taken for every other mode string) there is no
raise at all, so construction always succeeds there. -/
def rateLimiterInit (maxRequests : ℤ) (timeWindow : ℚ) (mode : String)
    (now : ℚ) : Except ConfigError RLState :=
  if mode = semaphoreMode then
    if maxRequests < 0 then .error .valueError
    else .ok (rateLimiterState maxRequests timeWindow mode now)
  else .ok (rateLimiterState maxRequests timeWindow mode now)

/-- The refill computed at the top of the token-bucket branch of
`acquire()`: `min(max_requests, tokens + elapsed * (max_requests / time_window))`
with `elapsed = now - last_update` (rate_limit.py lines 58–64). -/
def refillAmount (s : RLState) (now : ℚ) : ℚ :=
  min (s.maxRequests : ℚ)
    (s.tokens + (now - s.lastUpdate) * ((s.maxRequests : ℚ) / s.timeWindow))

/-- Whether an `acquire()` call suspended, and for how long. -/
inductive AcquireStep
  | waited (waitTime : ℚ)
  | immediate
deriving Repr, DecidableEq

/-- The token-bucket branch of `RateLimiter.acquire()`
(rate_limit.py lines 54–71): refill `tokens` from the elapsed time, set
`last_update = now`; if fewer than one token is available, sleep
`(1 - tokens) * (time_window / max_requests)` and then set `tokens = 0`,
otherwise consume one token and return immediately. -/
def acquireTokens (s : RLState) (now : ℚ) : RLState × AcquireStep :=
  let refilled := refillAmount s now
  if refilled < 1 then
    let waitTime := (1 - refilled) * (s.timeWindow / (s.maxRequests : ℚ))
    ({ s with tokens := 0, lastUpdate := now }, .waited waitTime)
  else
    ({ s with tokens := refilled - 1, lastUpdate := now }, .immediate)

/-- The token-bucket `acquire()` written from the spec's own words
(section 4.1): refill `availableTokens = min(capacity, availableTokens +
elapsed * refillRatePerSecond)` with `refillRatePerSecond = capacity / window`;
if `availableTokens < 1`, compute `waitTime = (1 - availableTokens) *
(window / capacity)`, suspend for `waitTime`, then set `availableTokens = 0`;
otherwise decrement `availableTokens` by 1 immediately. -/
def specAcquireTokens (s : RLState) (now : ℚ) : RLState × AcquireStep :=
  let refillRatePerSecond := (s.maxRequests : ℚ) / s.timeWindow
  let elapsed := now - s.lastUpdate
  let availableTokens :=
    min (s.maxRequests : ℚ) (s.tokens + elapsed * refillRatePerSecond)
  if availableTokens < 1 then
    let waitTime := (1 - availableTokens) * (s.timeWindow / (s.maxRequests : ℚ))
    ({ s with tokens := 0, lastUpdate := now }, .waited waitTime)
  else
    ({ s with tokens := availableTokens - 1, lastUpdate := now }, .immediate)

/-- Primitive events of the token-bucket `acquire()` body, in program
order, used to expose where the per-instance `asyncio.Lock` is taken and
released relative to the suspension. -/
inductive AcqEvent
  | lockEnter
  | refillWrite
  | sleep (waitTime : ℚ)
  | tokensWrite (value : ℚ)
  | lockExit
deriving Repr, DecidableEq

/-- The event trace of one token-bucket `acquire()` call.  In the source
the whole body — refill, the `asyncio.sleep(wait_time)` when fewer than
one token is available, and the final write to `tokens` — sits inside
`async with self.lock` (rate_limit.py lines 54–71), so every event
between `lockEnter` and `lockExit` happens while the lock is held. -/
def acquireTokensTrace (s : RLState) (now : ℚ) : List AcqEvent :=
  let refilled := refillAmount s now
  if refilled < 1 then
    [.lockEnter, .refillWrite,
     .sleep ((1 - refilled) * (s.timeWindow / (s.maxRequests : ℚ))),
     .tokensWrite 0, .lockExit]
  else
    [.lockEnter, .refillWrite, .tokensWrite (refilled - 1), .lockExit]

/-! ### Timeout decorator — src/ai_utils/decorators/timeout.py -/

/-- Failures as the timeout wrapper's caller sees them: either the
distinguished `asyncio.TimeoutError` raised by `asyncio.wait_for`, or an
application failure passed through unchanged. -/
inductive TFailure (E : Type)
  | timedOut
  | app (e : E)
deriving Repr, DecidableEq

/-- An async operation, modelled by how long it runs and by the value it
returns or the exception it raises when allowed to finish. -/
structure AsyncOp (E A : Type) where
  duration : ℚ
  outcome : Except E A

/-- Modelled semantics of `asyncio.wait_for(aw, timeout=seconds)`, the
library call the decorator delegates to: if the operation completes
within the deadline its outcome passes through unchanged, otherwise it is
cancelled and `asyncio.TimeoutError` is raised. -/
def waitFor (op : AsyncOp E A) (seconds : ℚ) : Except (TFailure E) A :=
  if op.duration ≤ seconds then op.outcome.mapError TFailure.app
  else .error .timedOut

/-- The wrapper produced by `timeout(seconds)` (timeout.py lines 24–28):
`return await asyncio.wait_for(func(*args, **kwargs), timeout=seconds)`. -/
def timeoutRun (seconds : ℚ) (op : AsyncOp E A) : Except (TFailure E) A :=
  waitFor op seconds

/-! ### Async API client — src/ai_utils/client.py -/

/-- The configuration fields of `AsyncAPIClient` relevant to the request
path: `timeout_seconds`, `max_retries`, the optional rate limiter and
whether a structured logger was created. -/
structure ClientState where
  timeoutSeconds : ℚ
  maxRetries : ℤ
  rateLimiter : Option RLState
  hasLogger : Bool
deriving Repr, DecidableEq

/-- `AsyncAPIClient.__init__` (client.py lines 38–74) as a fallible
constructor.  The body stores the parameters, builds a
`RateLimiter(max_requests=rate_limit, time_window=1.0, mode="token_bucket")`
when `rate_limit` is truthy (`None` and `0` are falsy, negative integers
are truthy), and creates the logger when `enable_logging` is set; it
contains no validation and no raise statement, so the result is always
`ok`. -/
def asyncAPIClientInit (timeoutSeconds : ℚ) (maxRetries : ℤ)
    (rateLimit : Option ℤ) (enableLogging : Bool) (now : ℚ) :
    Except ConfigError ClientState :=
  .ok { timeoutSeconds
        maxRetries
        rateLimiter :=
          match rateLimit with
          | some r =>
            if r = 0 then none
            else some (rateLimiterState r 1 tokenBucketMode now)
          | none => none
        hasLogger := enableLogging }

/-- Observable events of one `AsyncAPIClient.request` call. -/
inductive ReqEvent
  | rateLimitAcquire
  | transportAttempt
  | logSuccessCall
  | logErrorCall
deriving Repr, DecidableEq, BEq

/-- One call to `AsyncAPIClient.request` (client.py lines 108–195).
`transport` is the outcome of the single `session.request` block
(including `raise_for_status` and body parsing); `successLog` and
`errorLog` are the outcomes of the `self.logger.log_request` calls on the
success and error paths.  The body acquires the rate limiter when one is
configured, then issues the transport call once — there is no retry loop
and `max_retries` is never read.  On success it logs (inside the `try`)
and returns the data; an exception from that logging call falls into the
`except` branch like any other failure.  In the `except` branch it logs
the error and re-raises; an exception from that logging call propagates
instead of the original one. -/
def requestRun (c : ClientState) (transport : Except Er Resp)
    (successLog : Except Er Unit) (errorLog : Except Er Unit) :
    List ReqEvent × Except Er Resp :=
  let pre := (if c.rateLimiter.isSome then [ReqEvent.rateLimitAcquire] else [])
      ++ [ReqEvent.transportAttempt]
  match transport with
  | .ok r =>
    if c.hasLogger then
      match successLog with
      | .ok _ => (pre ++ [.logSuccessCall], .ok r)
      | .error el =>
        match errorLog with
        | .ok _ => (pre ++ [.logSuccessCall, .logErrorCall], .error el)
        | .error el2 => (pre ++ [.logSuccessCall, .logErrorCall], .error el2)
    else (pre, .ok r)
  | .error e =>
    if c.hasLogger then
      match errorLog with
      | .ok _ => (pre ++ [.logErrorCall], .error e)
      | .error el2 => (pre ++ [.logErrorCall], .error el2)
    else (pre, .error e)

/-! ### Theorems -/

/-- Claim C5: for every attempt number `n ≥ 0`, the delay computed by the
retry wrapper is deterministic (it is a pure function of the strategy and
the 0-based attempt number) and non-negative: `2^n` seconds under the
exponential strategy and `n + 1` seconds under the linear strategy. -/
theorem delayFor_strategies (n : ℕ) :
    delayFor expStrategy n = 2 ^ n ∧
    delayFor linStrategy n = (n : ℤ) + 1 ∧
    0 ≤ delayFor expStrategy n ∧ 0 ≤ delayFor linStrategy n := by
  have hexp : delayFor expStrategy n = 2 ^ n := by
    unfold delayFor; rw [if_pos rfl]
  have hlin : delayFor linStrategy n = (n : ℤ) + 1 := by
    unfold delayFor; rw [if_neg (by decide)]
  refine ⟨hexp, hlin, ?_, ?_⟩
  · rw [hexp]; positivity
  · rw [hlin]; positivity

/-- Claim C10: for every `max_retries ≤ 0`, the wrapper produced by
`retry(max_retries, backoff)` returns `None` without ever invoking the
wrapped function, raising no error and performing no attempt or delay:
`range(max_retries)` is empty, so the loop body never runs and the
wrapper falls off the end of the function. -/
theorem retry_nonpositive_returns_none {E A : Type} (maxRetries : ℤ)
    (backoff : String) (f : ℕ → Except E A) (h : maxRetries ≤ 0) :
    retryRun maxRetries backoff f = ⟨none, [], []⟩ := by
  unfold retryRun
  rw [Int.toNat_of_nonpos h, retryFrom]

/-- Witness for `retry_nonpositive_returns_none` at `max_retries = -1`. -/
theorem retry_nonpositive_returns_none_witness :
    retryRun (-1) expStrategy (fun n => (Except.error n : Except ℕ ℕ))
      = ⟨none, [], []⟩ :=
  retry_nonpositive_returns_none (-1) expStrategy _ (by decide)

/-- Claim C3: the token-bucket `acquire()` of the source coincides, on
every state and every clock reading, with the acquire procedure written
from the spec's words: refill to
`min(capacity, availableTokens + elapsed * capacity / window)`; then if
fewer than one token is available wait
`(1 - availableTokens) * (window / capacity)` and set the count to `0`,
otherwise decrement by exactly one and return immediately. -/
theorem acquire_refines_spec (s : RLState) (now : ℚ) :
    acquireTokens s now = specAcquireTokens s now := rfl

/-- Counterexample to claim C4: no `InvalidConfig` error is raised at
construction time.  A rate limiter built with `max_requests = 0` or `-3`
in the default token-bucket mode, with `max_requests = 0` in semaphore
mode, and a client built with a negative timeout and `max_retries = 0`
all construct successfully; and even in the one failing case — semaphore
mode with negative capacity — what is raised is `asyncio.Semaphore`'s
`ValueError`, not an `InvalidConfig` error. -/
theorem init_accepts_invalid_config :
    rateLimiterInit 0 1 tokenBucketMode 0 ≠ .error .invalidConfig ∧
    rateLimiterInit (-3) 1 tokenBucketMode 0 ≠ .error .invalidConfig ∧
    rateLimiterInit 0 1 semaphoreMode 0 ≠ .error .invalidConfig ∧
    rateLimiterInit (-3) 1 semaphoreMode 0 ≠ .error .invalidConfig ∧
    rateLimiterInit (-3) 1 semaphoreMode 0 = .error .valueError ∧
    asyncAPIClientInit (-1) 0 (some 10) true 0 ≠ .error .invalidConfig := by
  exact ⟨fun h => Except.noConfusion h, fun h => Except.noConfusion h,
    fun h => Except.noConfusion h,
    fun h => ConfigError.noConfusion (Except.error.inj h), rfl,
    fun h => Except.noConfusion h⟩

/-- Claim C4 as amended: there is no `InvalidConfig` validation at
construction time.  In token-bucket mode — the default, and the only mode
`AsyncAPIClient` uses — `RateLimiter.__init__` accepts a capacity of 0 or
negative without error, and `AsyncAPIClient.__init__` accepts a
non-positive timeout and non-positive `max_retries` without error, so
there an invalid capacity surfaces (if at all) only later, inside
`acquire()`.  The only construction-time failure in the source is that in
semaphore mode `asyncio.Semaphore(max_requests)` raises `ValueError` for
a negative capacity; a capacity of 0 is accepted even there. -/
theorem init_no_invalid_config_validation (c : ℤ) (w : ℚ) (nowR : ℚ)
    (t : ℚ) (M : ℤ) (rl : Option ℤ) (lg : Bool) (nowC : ℚ) :
    rateLimiterInit c w tokenBucketMode nowR
      = .ok (rateLimiterState c w tokenBucketMode nowR) ∧
    rateLimiterInit 0 w semaphoreMode nowR
      = .ok (rateLimiterState 0 w semaphoreMode nowR) ∧
    (c < 0 → rateLimiterInit c w semaphoreMode nowR = .error .valueError) ∧
    (∃ cs, asyncAPIClientInit t M rl lg nowC = .ok cs) := by
  refine ⟨?_, ?_, ?_, ⟨_, rfl⟩⟩
  · unfold rateLimiterInit
    rw [if_neg (by decide : ¬ (tokenBucketMode = semaphoreMode))]
  · unfold rateLimiterInit
    rw [if_pos rfl, if_neg (by decide : ¬ ((0 : ℤ) < 0))]
  · intro hc
    unfold rateLimiterInit
    rw [if_pos rfl, if_pos hc]

/-- Witness for `init_no_invalid_config_validation` at capacity `-3`:
token-bucket construction succeeds, semaphore construction raises
`ValueError`. -/
theorem init_no_invalid_config_validation_witness :
    rateLimiterInit (-3) 1 tokenBucketMode 0
      = .ok (rateLimiterState (-3) 1 tokenBucketMode 0) ∧
    rateLimiterInit (-3) 1 semaphoreMode 0 = .error .valueError :=
  ⟨(init_no_invalid_config_validation (-3) 1 0 0 0 none false 0).1,
   (init_no_invalid_config_validation (-3) 1 0 0 0 none false 0).2.2.1
     (by norm_num)⟩

/-- Claim C7: in token-bucket mode the token count stays in
`[0, capacity]` across every `acquire()` call: starting from a state
satisfying the invariant, the count is recomputed lazily from the time
elapsed since the last update (and `last_update` is set to `now`), and
the resulting count is never negative and never exceeds the capacity. -/
theorem tokens_invariant_preserved (s : RLState) (now : ℚ)
    (hcap : 0 < s.maxRequests) (hwin : 0 < s.timeWindow)
    (h0 : 0 ≤ s.tokens) (h1 : s.tokens ≤ (s.maxRequests : ℚ))
    (hmono : s.lastUpdate ≤ now) :
    0 ≤ (acquireTokens s now).1.tokens ∧
    (acquireTokens s now).1.tokens ≤ (s.maxRequests : ℚ) ∧
    (acquireTokens s now).1.lastUpdate = now := by
  have hcapQ : (0 : ℚ) < (s.maxRequests : ℚ) := by exact_mod_cast hcap
  have hle : refillAmount s now ≤ (s.maxRequests : ℚ) := min_le_left _ _
  rcases lt_or_le (refillAmount s now) 1 with h | h
  · have hA : acquireTokens s now =
        ({ s with tokens := 0, lastUpdate := now },
         .waited ((1 - refillAmount s now)
            * (s.timeWindow / (s.maxRequests : ℚ)))) := by
      simp only [acquireTokens]
      rw [if_pos h]
    rw [hA]
    exact ⟨le_refl 0, le_of_lt hcapQ, rfl⟩
  · have hA : acquireTokens s now =
        ({ s with tokens := refillAmount s now - 1, lastUpdate := now },
         .immediate) := by
      simp only [acquireTokens]
      rw [if_neg (not_lt.mpr h)]
    rw [hA]
    exact ⟨(by linarith : (0 : ℚ) ≤ refillAmount s now - 1),
      (by linarith : refillAmount s now - 1 ≤ (s.maxRequests : ℚ)), rfl⟩

/-- Witness for `tokens_invariant_preserved`: capacity 2, window 1 s,
a full bucket last updated at time 0, acquired at time 1. -/
theorem tokens_invariant_preserved_witness :
    0 ≤ (acquireTokens ⟨2, 1, tokenBucketMode, 2, 0⟩ 1).1.tokens ∧
    (acquireTokens ⟨2, 1, tokenBucketMode, 2, 0⟩ 1).1.tokens ≤ ((2 : ℤ) : ℚ) ∧
    (acquireTokens ⟨2, 1, tokenBucketMode, 2, 0⟩ 1).1.lastUpdate = 1 :=
  tokens_invariant_preserved ⟨2, 1, tokenBucketMode, 2, 0⟩ 1
    (by norm_num) (by norm_num) (by norm_num) (by norm_num) (by norm_num)

/-- Counterexample to claim C8: the per-instance lock IS held across the
suspension.  With capacity 1, window 1 s and an empty bucket, the
`acquire()` body is `lockEnter, refillWrite, sleep 1, tokensWrite 0,
lockExit`: the `asyncio.sleep` sits strictly between lock entry (the
trace's head) and lock exit (its last element), because in the source the
whole branch, sleep included, is inside `async with self.lock`. -/
theorem lock_held_across_wait :
    acquireTokensTrace ⟨1, 1, tokenBucketMode, 0, 0⟩ 0 =
      [.lockEnter, .refillWrite, .sleep 1, .tokensWrite 0, .lockExit] ∧
    AcqEvent.sleep 1 ∈ acquireTokensTrace ⟨1, 1, tokenBucketMode, 0, 0⟩ 0 ∧
    (acquireTokensTrace ⟨1, 1, tokenBucketMode, 0, 0⟩ 0).head?
      = some .lockEnter ∧
    (acquireTokensTrace ⟨1, 1, tokenBucketMode, 0, 0⟩ 0).getLast?
      = some .lockExit := by
  have h1 : refillAmount ⟨1, 1, tokenBucketMode, 0, 0⟩ 0 = 0 := by
    norm_num [refillAmount]
  have htr : acquireTokensTrace ⟨1, 1, tokenBucketMode, 0, 0⟩ 0 =
      [.lockEnter, .refillWrite, .sleep 1, .tokensWrite 0, .lockExit] := by
    simp only [acquireTokensTrace, h1]
    norm_num
  rw [htr]
  exact ⟨rfl, by simp, rfl, rfl⟩

/-- Claim C8 as amended: every read and write of the token-bucket pair
happens while holding the limiter's per-instance lock — the trace of the
`acquire()` body begins with lock entry and ends with lock exit — but the
lock is NOT released around the suspension: a sleep event occurs (inside
the locked region) exactly when the refilled token count is below one, so
concurrent callers queue on the lock for the duration of the wait. -/
theorem acquire_lock_trace_shape (s : RLState) (now : ℚ) :
    (acquireTokensTrace s now).head? = some .lockEnter ∧
    (acquireTokensTrace s now).getLast? = some .lockExit ∧
    ((∃ w, AcqEvent.sleep w ∈ acquireTokensTrace s now)
      ↔ refillAmount s now < 1) := by
  simp only [acquireTokensTrace]
  rcases lt_or_le (refillAmount s now) 1 with h | h
  · rw [if_pos h]
    refine ⟨rfl, rfl, ?_⟩
    constructor
    · intro _; exact h
    · intro _
      exact ⟨(1 - refillAmount s now) * (s.timeWindow / (s.maxRequests : ℚ)),
        by simp⟩
  · rw [if_neg (not_lt.mpr h)]
    refine ⟨rfl, rfl, ?_⟩
    constructor
    · rintro ⟨w, hw⟩
      simp at hw
    · intro hlt; exact absurd hlt (not_lt.mpr h)

/-- Claim C6: for every operation run under the timeout guard, if the
deadline elapses before the operation completes the result is the
distinguished `asyncio.TimeoutError` failure; if the operation completes
first, its outcome — success value or failure — passes through the guard
unchanged; and the timed-out failure is distinguishable from every
application failure. -/
theorem timeout_guard_outcomes {E A : Type} (op : AsyncOp E A) (seconds : ℚ) :
    (seconds < op.duration → timeoutRun seconds op = .error .timedOut) ∧
    (op.duration ≤ seconds → ∀ a, op.outcome = .ok a →
      timeoutRun seconds op = .ok a) ∧
    (op.duration ≤ seconds → ∀ e, op.outcome = .error e →
      timeoutRun seconds op = .error (.app e)) ∧
    (∀ e : E, (Except.error TFailure.timedOut : Except (TFailure E) A)
      ≠ .error (.app e)) := by
  refine ⟨?_, ?_, ?_, ?_⟩
  · intro h
    unfold timeoutRun waitFor
    rw [if_neg (not_le.mpr h)]
  · intro h a ha
    unfold timeoutRun waitFor
    rw [if_pos h, ha]; rfl
  · intro h e he
    unfold timeoutRun waitFor
    rw [if_pos h, he]; rfl
  · intro e hcontra
    exact TFailure.noConfusion (Except.error.inj hcontra)

/-- Witness for `timeout_guard_outcomes`: a 2-second operation under a
1-second deadline times out; under a 3-second deadline its success value
and its failure both pass through unchanged. -/
theorem timeout_guard_outcomes_witness :
    timeoutRun 1 (⟨2, .ok 5⟩ : AsyncOp ℕ ℤ) = .error .timedOut ∧
    timeoutRun 3 (⟨2, .ok 5⟩ : AsyncOp ℕ ℤ) = .ok 5 ∧
    timeoutRun 3 (⟨2, .error 9⟩ : AsyncOp ℕ ℤ) = .error (.app 9) :=
  ⟨(timeout_guard_outcomes ⟨2, .ok 5⟩ 1).1 (by norm_num),
   (timeout_guard_outcomes ⟨2, .ok 5⟩ 3).2.1 (by norm_num) 5 rfl,
   (timeout_guard_outcomes ⟨2, .error 9⟩ 3).2.2.1 (by norm_num) 9 rfl⟩

/-- Counterexample to claim C9: a failure raised by the structured logger
does abort the operation.  With logging enabled, a transport call that
returned `42` and a success-path `log_request` that raises `7` make
`request` raise `7` instead of returning the response: the success log
runs inside the `try`, so its exception falls into the `except` branch
and is re-raised. -/
theorem logging_failure_aborts_request :
    (requestRun ⟨30, 3, none, true⟩ (Except.ok 42 : Except ℕ ℕ)
        (.error 7) (.ok ())).2 = .error 7 ∧
    (requestRun ⟨30, 3, none, true⟩ (Except.ok 42 : Except ℕ ℕ)
        (.error 7) (.ok ())).2 ≠ .ok 42 :=
  ⟨rfl, fun h => Except.noConfusion h⟩

/-- Claim C9 as amended: logging is not isolated from the control path —
an exception raised by a `log_request` call propagates out of `request`
(see `logging_failure_aborts_request`).  Only when the logging calls
themselves do not raise (in particular whenever logging is disabled,
since the calls are then skipped) does `request` return the response or
raise the request's own failure. -/
theorem request_result_when_logging_ok {Er Resp : Type} (c : ClientState)
    (t : Except Er Resp) :
    (requestRun c t (.ok ()) (.ok ())).2 = t := by
  unfold requestRun
  cases t <;> by_cases h : c.hasLogger <;> simp [h]

/-- Claim C1 (code bug): `AsyncAPIClient.request` does not retry.  The
class and method docstrings promise "Automatic retries with exponential
backoff" and raising "On HTTP errors after all retries", and `__init__`
stores `max_retries`, but the method body contains no loop: it acquires
the rate-limit permit and then issues the transport call exactly once,
surfacing the first failure directly.  Here a client configured with
`max_retries = 3` and a rate limiter sees the transport fail once, and
`request` raises that first failure after a single attempt — the trace is
one `rateLimitAcquire` followed by exactly one `transportAttempt`. -/
theorem request_single_attempt_no_retry :
    (requestRun ⟨30, 3, some (rateLimiterState 10 1 tokenBucketMode 0), false⟩
        (Except.error 0 : Except ℕ ℕ) (.ok ()) (.ok ())).2 = .error 0 ∧
    (requestRun ⟨30, 3, some (rateLimiterState 10 1 tokenBucketMode 0), false⟩
        (Except.error 0 : Except ℕ ℕ) (.ok ()) (.ok ())).1
      = [.rateLimitAcquire, .transportAttempt] ∧
    (requestRun ⟨30, 3, some (rateLimiterState 10 1 tokenBucketMode 0), false⟩
        (Except.error 0 : Except ℕ ℕ) (.ok ()) (.ok ())).1.count
        .transportAttempt = 1 :=
  ⟨rfl, rfl, rfl⟩

/-- Helper for the always-failing retry analysis: starting at any
`attempt` with `fuel` loop iterations remaining and
`attempt + fuel = max_retries`, the loop invokes the function once per
attempt in `[attempt, attempt + fuel)`, sleeps the computed delay after
every attempt except the last, and finally re-raises the last attempt's
exception. -/
theorem retryFrom_allFail {E A : Type} (maxRetries : ℤ) (backoff : String)
    (f : ℕ → Except E A) (e : ℕ → E) (hf : ∀ n, f n = .error (e n)) :
    ∀ (fuel attempt : ℕ), 0 < fuel → (attempt : ℤ) + fuel = maxRetries →
      retryFrom maxRetries backoff f attempt fuel =
        ⟨some (.error (e (attempt + fuel - 1))), List.range' attempt fuel,
          (List.range' attempt (fuel - 1)).map (delayFor backoff)⟩ := by
  intro fuel
  induction fuel with
  | zero => intro attempt h; exact absurd h (lt_irrefl 0)
  | succ k ih =>
    intro attempt _ hsum
    rcases Nat.eq_zero_or_pos k with hk | hk
    · subst hk
      have hlast : (attempt : ℤ) = maxRetries - 1 := by
        push_cast at hsum; omega
      simp only [retryFrom, hf attempt, if_pos hlast]
      simp [List.range'_one]
    · have hne : ¬ ((attempt : ℤ) = maxRetries - 1) := by
        push_cast at hsum; omega
      have hsum' : ((attempt + 1 : ℕ) : ℤ) + k = maxRetries := by
        push_cast at hsum ⊢; omega
      simp only [retryFrom, hf attempt, if_neg hne, ih (attempt + 1) hk hsum']
      obtain ⟨m, rfl⟩ : ∃ m, k = m + 1 :=
        ⟨k - 1, (Nat.succ_pred_eq_of_pos hk).symm⟩
      simp only [RetryTrace.mk.injEq]
      refine ⟨?_, ?_, ?_⟩
      · have hidx : attempt + 1 + (m + 1) - 1 = attempt + (m + 1 + 1) - 1 := by
          omega
        rw [hidx]
      · exact (List.range'_succ attempt (m + 1) 1).symm
      · have hms : m + 1 + 1 - 1 = m + 1 := by omega
        have hm : m + 1 - 1 = m := by omega
        rw [hms, hm, List.range'_succ attempt m 1, List.map_cons]

/-- Claim C2: for every `max_retries = M ≥ 1` and every operation that
fails on every attempt, the retry wrapper invokes the operation exactly
`M` times (on attempts `0, …, M-1`, in order), the exception finally
raised is exactly the failure of the `M`th (last, 0-based `M-1`) attempt,
and the wrapper retries (sleeps and continues) after attempt `n` exactly
when `n < M - 1` — the sleeps happen precisely after attempts
`0, …, M-2`, matching `shouldRetry(n) = n < maxAttempts - 1`. -/
theorem retry_exhausts_maxAttempts {E A : Type} (M : ℤ) (backoff : String)
    (f : ℕ → Except E A) (e : ℕ → E) (hM : 1 ≤ M)
    (hf : ∀ n, f n = .error (e n)) :
    (retryRun M backoff f).calls = List.range M.toNat ∧
    (retryRun M backoff f).result = some (.error (e (M.toNat - 1))) ∧
    (retryRun M backoff f).sleeps
      = (List.range (M.toNat - 1)).map (delayFor backoff) := by
  have h0 : 0 < M.toNat := by omega
  have hsum : ((0 : ℕ) : ℤ) + (M.toNat : ℤ) = M := by push_cast; omega
  have h := retryFrom_allFail M backoff f e hf M.toNat 0 h0 hsum
  unfold retryRun
  rw [h]
  refine ⟨?_, ?_, ?_⟩
  · rw [List.range_eq_range']
  · simp
  · rw [List.range_eq_range']

/-- Witness for `retry_exhausts_maxAttempts`: `max_retries = 2` with an
operation whose attempt `n` raises `n`; the wrapper invokes it on
attempts 0 and 1, sleeps once, and raises the failure of attempt 1. -/
theorem retry_exhausts_maxAttempts_witness :
    (retryRun 2 expStrategy (fun n => (Except.error n : Except ℕ ℕ))).calls
        = List.range (2 : ℤ).toNat ∧
    (retryRun 2 expStrategy (fun n => (Except.error n : Except ℕ ℕ))).result
        = some (.error ((2 : ℤ).toNat - 1)) ∧
    (retryRun 2 expStrategy (fun n => (Except.error n : Except ℕ ℕ))).sleeps
        = (List.range ((2 : ℤ).toNat - 1)).map (delayFor expStrategy) :=
  retry_exhausts_maxAttempts 2 expStrategy _ (fun n => n)
    (by norm_num) (fun n => rfl)
